import Mathlib

/-!
Verification of the Curate-tivity/media ingestion pipeline and channel registry.

The development shallowly embeds the Python sources:
* `src/utils/config.py`  — channel registry (`ConfigManager`);
* `src/utils/sql.py`     — persistence sink (`insert_data`);
* `src/youtube.py`       — transcript fetcher, summarizer, video discovery and
  the module-level run driver (channel loop).

External collaborators (transcript source, LLM endpoint, video platform API,
database driver) are modelled as oracles: each call site receives the
collaborator's response as an `Except`/`Option` value, and the embedded code
reproduces exactly the control flow the Python source performs on it.
-/

namespace Media

/-! ## Channel registry (src/utils/config.py)

A Python channel dict may lack any of its keys, so every field is an `Option`;
`ch.get('enabled', True)` becomes `enabled.getD true`, `'id' in ch` becomes
`id.isSome`.  `save_config` writes the YAML file; we count its invocations in
`saves` so that "no save is performed" is observable. -/

structure Channel where
  id : Option String
  name : Option String
  enabled : Option Bool
deriving Repr, DecidableEq

structure Config where
  channels : List Channel
  saves : Nat
deriving Repr, DecidableEq

/-- `get_channels`: all channels, or only those with `enabled` truthy
(missing key defaults to `True`). -/
def get_channels (cfg : Config) (enabled_only : Bool) : List Channel :=
  if enabled_only then cfg.channels.filter (fun ch => ch.enabled.getD true) else cfg.channels

/-- `get_channel_ids`: the list comprehension
`[ch['id'] for ch in channels if 'id' in ch]`. -/
def get_channel_ids (cfg : Config) (enabled_only : Bool) : List String :=
  (get_channels cfg enabled_only).filterMap Channel.id

/-- Python `name or default`: the left operand wins only when truthy
(non-`None` and non-empty). -/
def pyOrStr (o : Option String) (dflt : String) : String :=
  match o with
  | some s => if s = "" then dflt else s
  | none => dflt

/-- `add_channel`: refuse when some stored channel already carries this id,
otherwise append `{'id': …, 'name': name or "Channel <id>", 'enabled': …}`
and save. -/
def add_channel (cfg : Config) (channel_id : String) (name : Option String)
    (enabled : Bool) : Bool × Config :=
  if cfg.channels.any (fun ch => ch.id == some channel_id) then
    (false, cfg)
  else
    let new_channel : Channel :=
      { id := some channel_id
        name := some (pyOrStr name ("Channel " ++ channel_id))
        enabled := some enabled }
    (true, { channels := cfg.channels ++ [new_channel], saves := cfg.saves + 1 })

/-- `remove_channel`: keep the channels whose id differs, save only when the
list shrank.  The filtered list is stored back even on failure, as in the
source. -/
def remove_channel (cfg : Config) (channel_id : String) : Bool × Config :=
  let kept := cfg.channels.filter (fun ch => !(ch.id == some channel_id))
  if kept.length < cfg.channels.length then
    (true, { channels := kept, saves := cfg.saves + 1 })
  else
    (false, { cfg with channels := kept })

/-- The loop of `_set_channel_status`: update the first channel with this id,
`none` when no channel matches. -/
def set_status_list : List Channel → String → Bool → Option (List Channel)
  | [], _, _ => none
  | ch :: rest, channel_id, enabled =>
    if ch.id == some channel_id then
      some ({ ch with enabled := some enabled } :: rest)
    else
      (set_status_list rest channel_id enabled).map (ch :: ·)

/-- `_set_channel_status`: on a match, store the updated list and save. -/
def set_channel_status (cfg : Config) (channel_id : String) (enabled : Bool) :
    Bool × Config :=
  match set_status_list cfg.channels channel_id enabled with
  | some chs => (true, { channels := chs, saves := cfg.saves + 1 })
  | none => (false, cfg)

/-- `enable_channel`. -/
def enable_channel (cfg : Config) (channel_id : String) : Bool × Config :=
  set_channel_status cfg channel_id true

/-- `disable_channel`. -/
def disable_channel (cfg : Config) (channel_id : String) : Bool × Config :=
  set_channel_status cfg channel_id false

/-- The loop of `update_channel_name`: rename the first channel with this id. -/
def set_name_list : List Channel → String → String → Option (List Channel)
  | [], _, _ => none
  | ch :: rest, channel_id, name =>
    if ch.id == some channel_id then
      some ({ ch with name := some name } :: rest)
    else
      (set_name_list rest channel_id name).map (ch :: ·)

/-- `update_channel_name`: on a match, store the updated list and save. -/
def update_channel_name (cfg : Config) (channel_id : String) (name : String) :
    Bool × Config :=
  match set_name_list cfg.channels channel_id name with
  | some chs => (true, { channels := chs, saves := cfg.saves + 1 })
  | none => (false, cfg)

/-! ### Registry lemmas -/

theorem set_status_list_eq_none_of_no_match (channel_id : String) (enabled : Bool) :
    ∀ l : List Channel, (∀ ch ∈ l, ¬(ch.id = some channel_id)) →
      set_status_list l channel_id enabled = none := by
  intro l
  induction l with
  | nil => intro _; rfl
  | cons ch rest ih =>
    intro h
    have hch : ¬(ch.id = some channel_id) := h ch (List.mem_cons_self ch rest)
    have hrest : set_status_list rest channel_id enabled = none :=
      ih (fun c hc => h c (List.mem_cons_of_mem ch hc))
    simp [set_status_list, hch, hrest]

theorem set_name_list_eq_none_of_no_match (channel_id : String) (name : String) :
    ∀ l : List Channel, (∀ ch ∈ l, ¬(ch.id = some channel_id)) →
      set_name_list l channel_id name = none := by
  intro l
  induction l with
  | nil => intro _; rfl
  | cons ch rest ih =>
    intro h
    have hch : ¬(ch.id = some channel_id) := h ch (List.mem_cons_self ch rest)
    have hrest : set_name_list rest channel_id name = none :=
      ih (fun c hc => h c (List.mem_cons_of_mem ch hc))
    simp [set_name_list, hch, hrest]

theorem no_match_of_any_eq_false {cfg : Config} {channel_id : String}
    (h : cfg.channels.any (fun ch => ch.id == some channel_id) = false) :
    ∀ ch ∈ cfg.channels, ¬(ch.id = some channel_id) := by
  intro ch hch hEq
  have := List.any_eq_false.mp h ch hch
  simp [hEq] at this

/-- C8: with an id that already exists, `add_channel` fails and leaves the
configuration (channels and save count) unchanged; with an unknown id,
`remove_channel`, `enable_channel`, `disable_channel` and
`update_channel_name` each fail and leave the configuration unchanged, never
saving. -/
theorem C8_registry_failure_paths (cfg : Config) (channel_id : String)
    (name : Option String) (enabled : Bool) (newName : String) :
    (cfg.channels.any (fun ch => ch.id == some channel_id) = true →
      add_channel cfg channel_id name enabled = (false, cfg)) ∧
    (cfg.channels.any (fun ch => ch.id == some channel_id) = false →
      remove_channel cfg channel_id = (false, cfg) ∧
      enable_channel cfg channel_id = (false, cfg) ∧
      disable_channel cfg channel_id = (false, cfg) ∧
      update_channel_name cfg channel_id newName = (false, cfg)) := by
  constructor
  · intro h
    simp [add_channel, h]
  · intro h
    have hnm : ∀ ch ∈ cfg.channels, ¬(ch.id = some channel_id) :=
      no_match_of_any_eq_false h
    have hfilter : cfg.channels.filter (fun ch => !(ch.id == some channel_id)) =
        cfg.channels := by
      apply List.filter_eq_self.mpr
      intro ch hch
      simp [hnm ch hch]
    refine ⟨?_, ?_, ?_, ?_⟩
    · simp [remove_channel, hfilter]
    · simp [enable_channel, set_channel_status,
        set_status_list_eq_none_of_no_match channel_id true cfg.channels hnm]
    · simp [disable_channel, set_channel_status,
        set_status_list_eq_none_of_no_match channel_id false cfg.channels hnm]
    · simp [update_channel_name,
        set_name_list_eq_none_of_no_match channel_id newName cfg.channels hnm]

/-- A configuration used to exercise the registry theorems on concrete data. -/
def sampleConfig : Config :=
  { channels := [{ id := some "UCabc", name := some "AI News", enabled := some true }]
    saves := 0 }

theorem C8_witness :
    ([{ id := some "UCabc", name := some "AI News",
        enabled := some true }] : List Channel).any
        (fun ch => ch.id == some "UCabc") = true ∧
    add_channel sampleConfig "UCabc" (some "dup") true = (false, sampleConfig) ∧
    sampleConfig.channels.any (fun ch => ch.id == some "UCzzz") = false ∧
    remove_channel sampleConfig "UCzzz" = (false, sampleConfig) := by
  refine ⟨by decide, ?_, by decide, ?_⟩
  · exact (C8_registry_failure_paths sampleConfig "UCabc" (some "dup") true "n").1
      (by decide)
  · exact (((C8_registry_failure_paths sampleConfig "UCzzz" none true "n").2
      (by decide))).1

theorem count_eq_zero_of_no_match {cfg : Config} {channel_id : String}
    (h : ∀ ch ∈ cfg.channels, ¬(ch.id = some channel_id)) (enabled_only : Bool) :
    (get_channel_ids cfg enabled_only).count channel_id = 0 := by
  rw [List.count_eq_zero]
  intro hmem
  rcases List.mem_filterMap.mp hmem with ⟨ch, hch, hid⟩
  rcases enabled_only with _ | _
  · exact h ch (by simpa [get_channels] using hch) hid
  · have hch2 : ch ∈ cfg.channels := by
      simp only [get_channels, if_pos] at hch
      exact List.mem_of_mem_filter hch
    exact h ch hch2 hid

/-- C9: starting from any registry state with no channel carrying id `C`,
adding `C` as enabled succeeds, and the enabled channel ids then list `C`
exactly once. -/
theorem C9_add_then_list_once (cfg : Config) (channel_id : String)
    (name : Option String)
    (h : cfg.channels.any (fun ch => ch.id == some channel_id) = false) :
    (add_channel cfg channel_id name true).1 = true ∧
    ((get_channel_ids (add_channel cfg channel_id name true).2 true).count channel_id
      = 1) := by
  have hnm : ∀ ch ∈ cfg.channels, ¬(ch.id = some channel_id) :=
    no_match_of_any_eq_false h
  constructor
  · simp [add_channel, h]
  · have hids : get_channel_ids (add_channel cfg channel_id name true).2 true =
        get_channel_ids cfg true ++ [channel_id] := by
      simp [add_channel, h, get_channel_ids, get_channels, List.filter_append,
        List.filterMap_append]
    rw [hids, List.count_append]
    simp [count_eq_zero_of_no_match hnm true, List.count_singleton]

theorem C9_witness :
    (([{ id := some "UCabc", name := some "AI News",
         enabled := some true }] : List Channel).any
        (fun ch => ch.id == some "UCnew") = false) ∧
    (add_channel sampleConfig "UCnew" (some "New Channel") true).1 = true ∧
    ((get_channel_ids (add_channel sampleConfig "UCnew" (some "New Channel") true).2
        true).count "UCnew" = 1) := by
  refine ⟨by decide, ?_⟩
  exact C9_add_then_list_once sampleConfig "UCnew" (some "New Channel") (by decide)

/-! ## Transcript fetcher and summarizer (src/youtube.py)

`YouTubeTranscriptApi.get_transcript` yields a list of caption segments; the
source reads only each segment's `'text'` key, so only that field is
embedded.  A raised exception is an `Except.error` carrying its message. -/

structure Segment where
  text : String
deriving Repr, DecidableEq

/-- Python `sep.join(l)`: empty string on `[]`, otherwise the elements
interleaved with `sep`. -/
def pyJoin (sep : String) : List String → String
  | [] => ""
  | [s] => s
  | s :: rest => s ++ sep ++ pyJoin sep rest

/-- `get_transcript`: join the segment texts with a single space; any raised
error is caught and turned into `None`. -/
def get_transcript (fetch : Except String (List Segment)) : Option String :=
  match fetch with
  | .ok transcript_list => some (pyJoin " " (transcript_list.map Segment.text))
  | .error _ => none

/-- `count_tokens`: the tokenizer's count, or `None` when tokenizing raised. -/
def count_tokens (tok : Except String Nat) : Option Nat :=
  match tok with
  | .ok n => some n
  | .error _ => none

/-- `analyze_transcript`: on a successful chat completion, the stripped
message content together with the token count computed before the call; if
the LLM call raised, `(None, None)`. -/
def analyze_transcript (llm : Except String String) (tok : Except String Nat) :
    Option String × Option Nat :=
  match llm with
  | .ok content => (some content.trim, count_tokens tok)
  | .error _ => (none, none)

/-! ## Video discovery (src/youtube.py)

The search response is a list of items; the source keeps an item only when
`item['id'].get('videoId')` is truthy (present and non-empty).  Each kept id
triggers a detail request whose response supplies the remaining metadata. -/

structure SearchItem where
  videoId : Option String
deriving Repr, DecidableEq

/-- The fields of a detail response read by the source.  Keys read through
`.get(…)` are optional; `snippet.get('tags', [])` defaults to the empty
list. -/
structure Detail where
  publishedAt : String
  channelId : String
  title : String
  description : String
  thumbnails : String
  channelTitle : String
  tags : Option (List String)
  categoryId : String
  duration : String
  aspectRatio : Option String
  definition : String
  caption : String
  viewCount : String
  likeCount : Option String
  dislikeCount : Option String
  favoriteCount : String
  commentCount : Option String
deriving Repr, DecidableEq

structure VideoInfo where
  videoId : String
  publishedAt : String
  channelId : String
  title : String
  description : String
  thumbnails : String
  channelTitle : String
  tags : List String
  categoryId : String
  duration : String
  aspectRatio : Option String
  definition : String
  caption : String
  viewCount : String
  likeCount : Option String
  dislikeCount : Option String
  favoriteCount : String
  commentCount : Option String
deriving Repr, DecidableEq

/-- Python truthiness of `item['id'].get('videoId')`: present and non-empty. -/
def pyTruthy : Option String → Bool
  | some s => s != ""
  | none => false

/-- The dict appended to `video_data` for one candidate: `videoId` comes from
the search item, everything else from the detail response. -/
def mkVideoInfo (video_id : String) (d : Detail) : VideoInfo :=
  { videoId := video_id
    publishedAt := d.publishedAt
    channelId := d.channelId
    title := d.title
    description := d.description
    thumbnails := d.thumbnails
    channelTitle := d.channelTitle
    tags := d.tags.getD []
    categoryId := d.categoryId
    duration := d.duration
    aspectRatio := d.aspectRatio
    definition := d.definition
    caption := d.caption
    viewCount := d.viewCount
    likeCount := d.likeCount
    dislikeCount := d.dislikeCount
    favoriteCount := d.favoriteCount
    commentCount := d.commentCount }

/-- The body of the `for item in response.json()['items']` loop.  First
component: the accumulated `video_data`, or the first raised error (which in
the source unwinds to the enclosing handler, discarding the list).  Second
component: the video ids for which a detail request was issued, in order. -/
def processItems (details : String → Except String Detail) :
    List SearchItem → Except String (List VideoInfo) × List String
  | [] => (.ok [], [])
  | item :: rest =>
    if pyTruthy item.videoId then
      let video_id := item.videoId.getD ""
      match details video_id with
      | .ok d =>
        let r := processItems details rest
        match r.1 with
        | .ok vs => (.ok (mkVideoInfo video_id d :: vs), video_id :: r.2)
        | .error e => (.error e, video_id :: r.2)
      | .error e => (.error e, [video_id])
    else
      processItems details rest

/-- `get_videos_from_channel`: the request carries `max_results` as the
page-size URL parameter, but the body never truncates the response; any
raised error (search failure, malformed payload, detail failure) is caught
and the function returns `[]`. -/
def get_videos_from_channel (max_results : Nat)
    (search : Except String (List SearchItem))
    (details : String → Except String Detail) : List VideoInfo :=
  match search with
  | .error _ => []
  | .ok items =>
    match (processItems details items).1 with
    | .ok video_data => video_data
    | .error _ => []

/-! ## Persistence sink (src/utils/sql.py) -/

/-- One row of the `dbo.youtube` wide table, as bound by `insert_data`. -/
structure Row where
  videoId : String
  publishedAt : String
  channelId : String
  title : String
  description : String
  thumbnails : String
  channelTitle : String
  tags : List String
  categoryId : String
  duration : String
  aspectRatio : Option String
  definition : String
  caption : String
  viewCount : String
  likeCount : Option String
  dislikeCount : Option String
  favoriteCount : String
  commentCount : Option String
  transcript : String
  analysis : Option String
  is_processed : Bool
  token_count : Option Nat
  api_calls : Nat
  last_api_call : Nat
  transcript_cache : String
deriving Repr, DecidableEq

/-- Outcome of the `cursor.execute` / `connection.commit` pair.  `insert_data`
catches only `pyodbc.Error`; any other exception class propagates to the
caller. -/
inductive DbOutcome
  | ok
  | dbError
  | otherError
deriving Repr, DecidableEq

/-- `insert_data`: returns the rows actually written and whether an exception
escaped the function.  A `None` connection skips the insert (logged only); a
`pyodbc.Error` is caught and logged inside the function, so no exception
escapes and no row is written. -/
def insert_data (connection : Option Unit) (row : Row) (db : DbOutcome) :
    List Row × Bool :=
  match connection with
  | none => ([], false)
  | some _ =>
    match db with
    | .ok => ([row], false)
    | .dbError => ([], false)
    | .otherError => ([], true)

/-! ## Run driver (module-level channel loop of src/youtube.py)

The loop's observable state: the channel-scoped `api_calls` counter, the
`last_api_call` variable, the rows written to the store, the entries appended
to `failed_inserts.txt`, plus two effect traces — the number of
`analyze_transcript` invocations and the list of rows passed to
`insert_data` — so that "no summarization call" and "no persistence attempt"
are statable.  `datetime.datetime.now()` is modelled as a clock function
`now` applied to a tick counter advanced at each call; a monotone `now`
models real time. -/

structure LogEntry where
  video_info : VideoInfo
  transcript : String
  analysis : Option String
deriving Repr, DecidableEq

structure RunState where
  api_calls : Nat
  last_api_call : Option Nat
  tick : Nat
  store : List Row
  fallback : List LogEntry
  llm_calls : Nat
  attempts : List Row
deriving Repr, DecidableEq

/-- The oracle for one video: the transcript source's response, the LLM
response, the tokenizer's response, and the database outcome of its insert. -/
structure VideoOracle where
  fetch : Except String (List Segment)
  llm : Except String String
  tok : Except String Nat
  db : DbOutcome

/-- The row handed to `insert_data` for one processed video. -/
def mkRow (video_info : VideoInfo) (transcript : String) (analysis : Option String)
    (is_processed : Bool) (token_count : Option Nat) (api_calls : Nat)
    (last_api_call : Nat) (transcript_cache : String) : Row :=
  { videoId := video_info.videoId
    publishedAt := video_info.publishedAt
    channelId := video_info.channelId
    title := video_info.title
    description := video_info.description
    thumbnails := video_info.thumbnails
    channelTitle := video_info.channelTitle
    tags := video_info.tags
    categoryId := video_info.categoryId
    duration := video_info.duration
    aspectRatio := video_info.aspectRatio
    definition := video_info.definition
    caption := video_info.caption
    viewCount := video_info.viewCount
    likeCount := video_info.likeCount
    dislikeCount := video_info.dislikeCount
    favoriteCount := video_info.favoriteCount
    commentCount := video_info.commentCount
    transcript := transcript
    analysis := analysis
    is_processed := is_processed
    token_count := token_count
    api_calls := api_calls
    last_api_call := last_api_call
    transcript_cache := transcript_cache }

/-- The body of `for video_info in videos_info`: fetch the transcript; when it
is truthy, summarize, bump `api_calls`, stamp `last_api_call`, and attempt the
insert; if the insert raises, append one entry to the fallback log and
continue. -/
def processVideo (now : Nat → Nat) (connection : Option Unit)
    (ov : String → VideoOracle) (s : RunState) (video_info : VideoInfo) :
    RunState :=
  let o := ov video_info.videoId
  match get_transcript o.fetch with
  | none => s
  | some transcript =>
    if transcript != "" then
      let is_processed := true
      let transcript_cache := transcript
      let p := analyze_transcript o.llm o.tok
      let api_calls := s.api_calls + 1
      let last_api_call := now s.tick
      let row := mkRow video_info transcript p.1 is_processed p.2 api_calls
        last_api_call transcript_cache
      let w := insert_data connection row o.db
      { api_calls := api_calls
        last_api_call := some last_api_call
        tick := s.tick + 1
        store := s.store ++ w.1
        fallback := s.fallback ++
          (if w.2 then [⟨video_info, transcript, p.1⟩] else [])
        llm_calls := s.llm_calls + 1
        attempts := s.attempts ++ [row] }
    else s

/-- The collaborators of one channel: its id, the search response, the detail
responses, and the per-video oracles. -/
structure ChannelOracle where
  channel_id : String
  search : Except String (List SearchItem)
  details : String → Except String Detail
  video : String → VideoOracle

/-- The body of `for channel_id in channel_ids`: reset `api_calls` to zero,
discover the channel's videos, process each in order.  No operation in the
body raises — discovery and the sink catch internally, and the per-video
insert handler absorbs the rest — so the enclosing per-channel handler is
dead control flow and the body is total. -/
def processChannel (now : Nat → Nat) (connection : Option Unit)
    (max_results : Nat) (s : RunState) (ch : ChannelOracle) : RunState :=
  let s0 := { s with api_calls := 0 }
  let videos_info := get_videos_from_channel max_results ch.search ch.details
  videos_info.foldl (processVideo now connection ch.video) s0

/-- The whole run: fold the channel loop over the enabled channel ids. -/
def runDriver (now : Nat → Nat) (connection : Option Unit) (max_results : Nat)
    (s : RunState) (channels : List ChannelOracle) : RunState :=
  channels.foldl (processChannel now connection max_results) s

/-- The state at module start. -/
def initState : RunState :=
  { api_calls := 0, last_api_call := none, tick := 0, store := [],
    fallback := [], llm_calls := 0, attempts := [] }

/-! ### Sample collaborator data for concrete evaluations -/

def sampleDetail : Detail :=
  { publishedAt := "2024-01-01T00:00:00Z"
    channelId := "UCabc"
    title := "A video"
    description := "about things"
    thumbnails := "thumbs"
    channelTitle := "AI News"
    tags := none
    categoryId := "22"
    duration := "PT1M"
    aspectRatio := none
    definition := "hd"
    caption := "true"
    viewCount := "10"
    likeCount := none
    dislikeCount := none
    favoriteCount := "0"
    commentCount := none }

def sampleVideo : VideoInfo := mkVideoInfo "v1" sampleDetail

def okDetails : String → Except String Detail := fun _ => .ok sampleDetail

def okOracle : String → VideoOracle :=
  fun _ => { fetch := .ok [⟨"hello"⟩, ⟨"world"⟩], llm := .ok " a summary ",
             tok := .ok 42, db := .ok }

/-! ### Transcript joining (C7) -/

/-- The tail of a separator join: `sep ++ a` for each remaining element. -/
def joinTail (sep : String) : List String → String
  | [] => ""
  | a :: rest => sep ++ a ++ joinTail sep rest

theorem intercalate_go_eq (sep : String) :
    ∀ (as : List String) (acc : String),
      String.intercalate.go acc sep as = acc ++ joinTail sep as := by
  intro as
  induction as with
  | nil => intro acc; simp [String.intercalate.go, joinTail]
  | cons a rest ih =>
    intro acc
    simp [String.intercalate.go, joinTail, ih, String.append_assoc]

theorem pyJoin_cons (sep : String) :
    ∀ (as : List String) (a : String),
      pyJoin sep (a :: as) = a ++ joinTail sep as := by
  intro as
  induction as with
  | nil => intro a; simp [pyJoin, joinTail]
  | cons b rest ih =>
    intro a
    rw [show pyJoin sep (a :: b :: rest) = a ++ sep ++ pyJoin sep (b :: rest) from
      rfl, ih b]
    simp [joinTail, String.append_assoc]

theorem pyJoin_eq_intercalate (sep : String) (l : List String) :
    pyJoin sep l = String.intercalate sep l := by
  cases l with
  | nil => rfl
  | cons a as => rw [pyJoin_cons, String.intercalate, intercalate_go_eq]

/-- C7: for a successful fetch, `get_transcript` returns the caption segment
texts joined in original order with a single space separator; on any fetch
error it returns `None` instead of raising. -/
theorem C7_transcript_join (segs : List Segment) (e : String) :
    get_transcript (.ok segs) =
      some (String.intercalate " " (segs.map Segment.text)) ∧
    get_transcript (.error e) = none := by
  constructor
  · simp [get_transcript, pyJoin_eq_intercalate]
  · rfl

/-! ### The per-video step in normal form -/

theorem processVideo_of_no_transcript (now : Nat → Nat)
    (connection : Option Unit) (ov : String → VideoOracle) (s : RunState)
    (video_info : VideoInfo)
    (h : get_transcript (ov video_info.videoId).fetch = none) :
    processVideo now connection ov s video_info = s := by
  simp [processVideo, h]

theorem processVideo_of_empty_transcript (now : Nat → Nat)
    (connection : Option Unit) (ov : String → VideoOracle) (s : RunState)
    (video_info : VideoInfo)
    (h : get_transcript (ov video_info.videoId).fetch = some "") :
    processVideo now connection ov s video_info = s := by
  simp [processVideo, h]

theorem processVideo_of_truthy (now : Nat → Nat) (connection : Option Unit)
    (ov : String → VideoOracle) (s : RunState) (video_info : VideoInfo)
    (t : String) (hf : get_transcript (ov video_info.videoId).fetch = some t)
    (ht : t ≠ "") :
    processVideo now connection ov s video_info =
      (let o := ov video_info.videoId
       let p := analyze_transcript o.llm o.tok
       let row := mkRow video_info t p.1 true p.2 (s.api_calls + 1) (now s.tick) t
       let w := insert_data connection row o.db
       { api_calls := s.api_calls + 1
         last_api_call := some (now s.tick)
         tick := s.tick + 1
         store := s.store ++ w.1
         fallback := s.fallback ++ (if w.2 then [⟨video_info, t, p.1⟩] else [])
         llm_calls := s.llm_calls + 1
         attempts := s.attempts ++ [row] }) := by
  simp [processVideo, hf, ht]

/-- C10: a fetched transcript equal to the empty string — e.g. a video with
zero caption segments, whose join is `""` — is treated exactly like an
absent transcript: the driver state is untouched (no summarization call, no
persistence attempt, `api_calls` unchanged). -/
theorem C10_empty_transcript_skipped (now : Nat → Nat)
    (connection : Option Unit) (ov : String → VideoOracle) (s : RunState)
    (video_info : VideoInfo)
    (h : get_transcript (ov video_info.videoId).fetch = some "") :
    processVideo now connection ov s video_info = s ∧
    get_transcript (.ok ([] : List Segment)) = some "" :=
  ⟨processVideo_of_empty_transcript now connection ov s video_info h, rfl⟩

def emptyFetchOracle : String → VideoOracle :=
  fun _ => { fetch := .ok [], llm := .ok "a summary", tok := .ok 42, db := .ok }

theorem C10_witness :
    get_transcript (emptyFetchOracle sampleVideo.videoId).fetch = some "" ∧
    processVideo (fun i => i) (some ()) emptyFetchOracle initState sampleVideo =
      initState :=
  ⟨rfl, (C10_empty_transcript_skipped (fun i => i) (some ()) emptyFetchOracle
      initState sampleVideo rfl).1⟩

/-- C3: when the transcript fetch signals unavailable, the driver performs no
summarization call and no persistence attempt for that video, and the
channel's `api_calls` counter is not incremented (the whole state is
untouched). -/
theorem C3_unavailable_transcript_skipped (now : Nat → Nat)
    (connection : Option Unit) (ov : String → VideoOracle) (s : RunState)
    (video_info : VideoInfo) (e : String)
    (h : (ov video_info.videoId).fetch = .error e) :
    processVideo now connection ov s video_info = s ∧
    (processVideo now connection ov s video_info).llm_calls = s.llm_calls ∧
    (processVideo now connection ov s video_info).attempts = s.attempts ∧
    (processVideo now connection ov s video_info).api_calls = s.api_calls := by
  have heq : processVideo now connection ov s video_info = s :=
    processVideo_of_no_transcript now connection ov s video_info
      (by simp [get_transcript, h])
  exact ⟨heq, by rw [heq], by rw [heq], by rw [heq]⟩

def unavailableOracle : String → VideoOracle :=
  fun _ => { fetch := .error "TranscriptsDisabled", llm := .ok "a summary",
             tok := .ok 42, db := .ok }

theorem C3_witness :
    (unavailableOracle sampleVideo.videoId).fetch = .error "TranscriptsDisabled" ∧
    processVideo (fun i => i) (some ()) unavailableOracle initState sampleVideo =
      initState :=
  ⟨rfl, (C3_unavailable_transcript_skipped (fun i => i) (some ())
      unavailableOracle initState sampleVideo "TranscriptsDisabled" rfl).1⟩

/-- C4: when the LLM call raises, the summarizer returns `(None, None)`, and
the driver still attempts persistence of the record, with the summary field
(and the token count) left empty. -/
theorem C4_llm_error_still_persists (now : Nat → Nat)
    (connection : Option Unit) (ov : String → VideoOracle) (s : RunState)
    (video_info : VideoInfo) (t e : String)
    (hf : get_transcript (ov video_info.videoId).fetch = some t)
    (ht : t ≠ "")
    (hl : (ov video_info.videoId).llm = .error e) :
    analyze_transcript (ov video_info.videoId).llm (ov video_info.videoId).tok =
      (none, none) ∧
    (processVideo now connection ov s video_info).attempts =
      s.attempts ++
        [mkRow video_info t none true none (s.api_calls + 1) (now s.tick) t] := by
  have ha : analyze_transcript (ov video_info.videoId).llm
      (ov video_info.videoId).tok = (none, none) := by
    simp [analyze_transcript, hl]
  refine ⟨ha, ?_⟩
  rw [processVideo_of_truthy now connection ov s video_info t hf ht]
  simp [ha]

def llmErrorOracle : String → VideoOracle :=
  fun _ => { fetch := .ok [⟨"hello"⟩], llm := .error "RateLimitError",
             tok := .ok 42, db := .ok }

theorem C4_witness :
    get_transcript (llmErrorOracle sampleVideo.videoId).fetch = some "hello" ∧
    (processVideo (fun i => i) (some ()) llmErrorOracle initState
        sampleVideo).attempts =
      [mkRow sampleVideo "hello" none true none 1 0 "hello"] := by
  refine ⟨rfl, ?_⟩
  have h := (C4_llm_error_still_persists (fun i => i) (some ()) llmErrorOracle
    initState sampleVideo "hello" "RateLimitError" rfl (by decide) rfl).2
  simpa [initState] using h

/-! ### api_calls / last_api_call accounting (C2) -/

/-- The source invokes `analyze_transcript` exactly when the fetched
transcript is truthy. -/
def summarizationAttempted (o : VideoOracle) : Bool :=
  match get_transcript o.fetch with
  | some t => t != ""
  | none => false

/-- A summarization call was made and the LLM answered without raising. -/
def summarizationOk (o : VideoOracle) : Bool :=
  summarizationAttempted o &&
    (match o.llm with | .ok _ => true | .error _ => false)

theorem summarizationAttempted_iff (o : VideoOracle) :
    summarizationAttempted o = true ↔
      ∃ t, get_transcript o.fetch = some t ∧ t ≠ "" := by
  unfold summarizationAttempted
  cases h : get_transcript o.fetch with
  | none => simp
  | some t => simp

/-- C2: within one run, (a) a channel's processing starts by resetting
`api_calls` to zero — the incoming counter value is irrelevant; (b) each
per-video step leaves `api_calls` non-decreasing; (c) a video with a present
(truthy) transcript and a successful summarization increments `api_calls` by
exactly one and stamps `last_api_call` with the current clock reading;
(d) under a monotone clock that stamp is ≥ any previously recorded stamp;
(e) the recorded-stamp invariant is preserved by every step; and (f) a video
for which no summarization call is attempted leaves `last_api_call`
untouched. -/
theorem C2_api_calls_accounting (now : Nat → Nat)
    (hmono : ∀ i j : Nat, i ≤ j → now i ≤ now j) :
    (∀ (connection : Option Unit) (max_results n : Nat) (s : RunState)
        (ch : ChannelOracle),
      processChannel now connection max_results { s with api_calls := n } ch =
        processChannel now connection max_results s ch) ∧
    (∀ (connection : Option Unit) (ov : String → VideoOracle) (s : RunState)
        (video_info : VideoInfo),
      s.api_calls ≤ (processVideo now connection ov s video_info).api_calls) ∧
    (∀ (connection : Option Unit) (ov : String → VideoOracle) (s : RunState)
        (video_info : VideoInfo),
      summarizationOk (ov video_info.videoId) = true →
        (processVideo now connection ov s video_info).api_calls =
          s.api_calls + 1 ∧
        (processVideo now connection ov s video_info).last_api_call =
          some (now s.tick)) ∧
    (∀ (connection : Option Unit) (ov : String → VideoOracle) (s : RunState)
        (video_info : VideoInfo) (p i : Nat),
      summarizationOk (ov video_info.videoId) = true →
      s.last_api_call = some p → p = now i → i ≤ s.tick →
        ∃ q, (processVideo now connection ov s video_info).last_api_call =
          some q ∧ p ≤ q) ∧
    (∀ (connection : Option Unit) (ov : String → VideoOracle) (s : RunState)
        (video_info : VideoInfo),
      (∀ p, s.last_api_call = some p → ∃ i, i ≤ s.tick ∧ p = now i) →
      ∀ p, (processVideo now connection ov s video_info).last_api_call = some p →
        ∃ i, i ≤ (processVideo now connection ov s video_info).tick ∧
          p = now i) ∧
    (∀ (connection : Option Unit) (ov : String → VideoOracle) (s : RunState)
        (video_info : VideoInfo),
      summarizationAttempted (ov video_info.videoId) = false →
        (processVideo now connection ov s video_info).last_api_call =
          s.last_api_call) := by
  have hstep : ∀ (connection : Option Unit) (ov : String → VideoOracle)
      (s : RunState) (video_info : VideoInfo),
      (processVideo now connection ov s video_info = s ∧
        summarizationAttempted (ov video_info.videoId) = false) ∨
      (summarizationAttempted (ov video_info.videoId) = true ∧
        (processVideo now connection ov s video_info).api_calls =
          s.api_calls + 1 ∧
        (processVideo now connection ov s video_info).last_api_call =
          some (now s.tick) ∧
        (processVideo now connection ov s video_info).tick = s.tick + 1) := by
    intro connection ov s video_info
    cases hf : get_transcript (ov video_info.videoId).fetch with
    | none =>
      left
      refine ⟨processVideo_of_no_transcript now connection ov s video_info hf, ?_⟩
      simp [summarizationAttempted, hf]
    | some t =>
      by_cases ht : t = ""
      · left
        subst ht
        refine ⟨processVideo_of_empty_transcript now connection ov s video_info
          hf, ?_⟩
        simp [summarizationAttempted, hf]
      · right
        refine ⟨?_, ?_⟩
        · simp [summarizationAttempted, hf, ht]
        · rw [processVideo_of_truthy now connection ov s video_info t hf ht]
          exact ⟨rfl, rfl, rfl⟩
  refine ⟨?_, ?_, ?_, ?_, ?_, ?_⟩
  · intro connection max_results n s ch
    rfl
  · intro connection ov s video_info
    rcases hstep connection ov s video_info with ⟨heq, _⟩ | ⟨_, hinc, _⟩
    · rw [heq]
    · rw [hinc]; exact Nat.le_succ _
  · intro connection ov s video_info hok
    have hatt : summarizationAttempted (ov video_info.videoId) = true :=
      (Bool.and_eq_true_iff.mp hok).1
    rcases hstep connection ov s video_info with ⟨_, hno⟩ | ⟨_, hinc, hlast, _⟩
    · rw [hatt] at hno; cases hno
    · exact ⟨hinc, hlast⟩
  · intro connection ov s video_info p i hok hp hpi hile
    have hatt : summarizationAttempted (ov video_info.videoId) = true :=
      (Bool.and_eq_true_iff.mp hok).1
    rcases hstep connection ov s video_info with ⟨_, hno⟩ | ⟨_, _, hlast, _⟩
    · rw [hatt] at hno; cases hno
    · exact ⟨now s.tick, hlast, hpi ▸ hmono i s.tick hile⟩
  · intro connection ov s video_info hinv p hp
    rcases hstep connection ov s video_info with ⟨heq, _⟩ | ⟨_, _, hlast, htick⟩
    · rw [heq] at hp ⊢
      rcases hinv p hp with ⟨i, hi, hpi⟩
      exact ⟨i, hi, hpi⟩
    · rw [hlast] at hp
      rw [htick]
      exact ⟨s.tick, Nat.le_succ _, (Option.some_inj.mp hp).symm⟩
  · intro connection ov s video_info hno
    rcases hstep connection ov s video_info with ⟨heq, _⟩ | ⟨hatt, _⟩
    · rw [heq]
    · rw [hno] at hatt; cases hatt

theorem C2_witness :
    summarizationOk (okOracle sampleVideo.videoId) = true ∧
    (processVideo (fun i => i) (some ()) okOracle initState
        sampleVideo).api_calls = initState.api_calls + 1 := by
  refine ⟨by decide, ?_⟩
  exact ((C2_api_calls_accounting (fun i => i) (fun i j h => h)).2.2.1
    (some ()) okOracle initState sampleVideo (by decide)).1

/-! ### Discovery failure isolation (C5) -/

/-- C5: a failed search call, and likewise a raised error anywhere in the
item loop (failed or malformed detail response), makes
`get_videos_from_channel` return the empty list instead of raising, and the
run driver then continues with the remaining channels: the failing channel
contributes nothing to the run state beyond resetting `api_calls`. -/
theorem C5_discovery_failure_isolated :
    (∀ (max_results : Nat) (e : String)
        (details : String → Except String Detail),
      get_videos_from_channel max_results (.error e) details = []) ∧
    (∀ (max_results : Nat) (items : List SearchItem)
        (details : String → Except String Detail) (e : String),
      (processItems details items).1 = .error e →
      get_videos_from_channel max_results (.ok items) details = []) ∧
    (∀ (now : Nat → Nat) (connection : Option Unit) (max_results : Nat)
        (s : RunState) (ch : ChannelOracle) (rest : List ChannelOracle)
        (e : String),
      ch.search = .error e →
      runDriver now connection max_results s (ch :: rest) =
        runDriver now connection max_results { s with api_calls := 0 } rest) := by
  refine ⟨fun _ _ _ => rfl, ?_, ?_⟩
  · intro max_results items details e h
    simp [get_videos_from_channel, h]
  · intro now connection max_results s ch rest e h
    simp [runDriver, processChannel, get_videos_from_channel, h]

def failingSearchChannel : ChannelOracle :=
  { channel_id := "UCbad", search := .error "HTTPError 500",
    details := okDetails, video := okOracle }

def okChannel : ChannelOracle :=
  { channel_id := "UCabc", search := .ok [{ videoId := some "v1" }],
    details := okDetails, video := okOracle }

theorem C5_witness :
    failingSearchChannel.search = .error "HTTPError 500" ∧
    runDriver (fun i => i) (some ()) 20 initState
        [failingSearchChannel, okChannel] =
      runDriver (fun i => i) (some ()) 20 { initState with api_calls := 0 }
        [okChannel] :=
  ⟨rfl, C5_discovery_failure_isolated.2.2 (fun i => i) (some ()) 20 initState
      failingSearchChannel [okChannel] "HTTPError 500" rfl⟩

/-! ### Discovery bound, order, and skipping (C6) -/

/-- The ids of the search candidates with a truthy `videoId`, in order. -/
def truthyIds (items : List SearchItem) : List String :=
  (items.filter (fun item => pyTruthy item.videoId)).filterMap SearchItem.videoId

def twoItemSearch : List SearchItem :=
  [{ videoId := some "v1" }, { videoId := some "v2" }]

/-- C6 counterexample: the source passes `max_results` only as a URL
parameter and never truncates the response, so a search response with more
items than `max_results` yields more than `max_results` records: with
`max_results = 1` and two well-formed candidates the function returns 2
records. -/
theorem C6_counterexample :
    (get_videos_from_channel 1 (.ok twoItemSearch) okDetails).length = 2 ∧
    ¬((get_videos_from_channel 1 (.ok twoItemSearch) okDetails).length ≤ 1) := by
  constructor
  · rfl
  · decide

theorem truthyIds_cons_true (vid : String) (rest : List SearchItem)
    (h : pyTruthy (some vid) = true) :
    truthyIds (⟨some vid⟩ :: rest) = vid :: truthyIds rest := by
  simp [truthyIds, List.filter_cons, h, List.filterMap_cons]

theorem truthyIds_cons_false (item : SearchItem) (rest : List SearchItem)
    (h : pyTruthy item.videoId = false) :
    truthyIds (item :: rest) = truthyIds rest := by
  simp [truthyIds, List.filter_cons, h]

theorem processItems_of_details_ok
    (details : String → Except String Detail)
    (hok : ∀ video_id, (details video_id).isOk = true) :
    ∀ items : List SearchItem,
      ∃ vs : List VideoInfo,
        (processItems details items).1 = .ok vs ∧
        vs.map VideoInfo.videoId = truthyIds items ∧
        (processItems details items).2 = truthyIds items := by
  intro items
  induction items with
  | nil => exact ⟨[], rfl, rfl, rfl⟩
  | cons item rest ih =>
    rcases ih with ⟨vs, h1, h2, h3⟩
    rcases item with ⟨_ | vid⟩
    · refine ⟨vs, ?_, ?_, ?_⟩
      · simpa [processItems, pyTruthy] using h1
      · rw [truthyIds_cons_false ⟨none⟩ rest rfl]
        exact h2
      · rw [truthyIds_cons_false ⟨none⟩ rest rfl]
        simpa [processItems, pyTruthy] using h3
    · by_cases he : vid = ""
      · subst he
        have hfalse : pyTruthy (some "") = false := by simp [pyTruthy]
        refine ⟨vs, ?_, ?_, ?_⟩
        · simpa [processItems, hfalse] using h1
        · rw [truthyIds_cons_false ⟨some ""⟩ rest hfalse]
          exact h2
        · rw [truthyIds_cons_false ⟨some ""⟩ rest hfalse]
          simpa [processItems, hfalse] using h3
      · have htr : pyTruthy (some vid) = true := by simp [pyTruthy, he]
        cases hd : details vid with
        | error e =>
          have hvid2 := hok vid
          rw [hd] at hvid2
          simp [Except.isOk, Except.toBool] at hvid2
        | ok d =>
          refine ⟨mkVideoInfo vid d :: vs, ?_, ?_, ?_⟩
          · simp [processItems, htr, hd, h1]
          · rw [truthyIds_cons_true vid rest htr]
            simp [mkVideoInfo, h2]
          · rw [truthyIds_cons_true vid rest htr]
            simp [processItems, htr, hd, h1, h3]

/-- C6 (amended): when the search response honours the requested page size —
at most `max_results` items — and every detail fetch succeeds,
`get_videos_from_channel` returns at most `max_results` records, their video
ids are exactly the truthy candidate ids in the search response's order, and
the detail requests issued are exactly those ids, so a candidate lacking a
video id produces no record and no detail fetch.  The code itself never
truncates an over-long response. -/
theorem C6_amended_bound_order_skip (max_results : Nat)
    (items : List SearchItem) (details : String → Except String Detail)
    (hlen : items.length ≤ max_results)
    (hok : ∀ video_id, (details video_id).isOk = true) :
    (get_videos_from_channel max_results (.ok items) details).length ≤
      max_results ∧
    (get_videos_from_channel max_results (.ok items) details).map
      VideoInfo.videoId = truthyIds items ∧
    (processItems details items).2 = truthyIds items := by
  rcases processItems_of_details_ok details hok items with ⟨vs, h1, h2, h3⟩
  have hres : get_videos_from_channel max_results (.ok items) details = vs := by
    simp [get_videos_from_channel, h1]
  refine ⟨?_, by rw [hres]; exact h2, h3⟩
  rw [hres]
  have hlen2 : vs.length = (truthyIds items).length := by
    rw [← h2, List.length_map]
  rw [hlen2]
  calc (truthyIds items).length
      ≤ (items.filter (fun item => pyTruthy item.videoId)).length :=
        List.length_filterMap_le _ _
    _ ≤ items.length := List.length_filter_le _ _
    _ ≤ max_results := hlen

theorem C6_witness :
    twoItemSearch.length ≤ 2 ∧
    (∀ video_id, (okDetails video_id).isOk = true) ∧
    (get_videos_from_channel 2 (.ok twoItemSearch) okDetails).length ≤ 2 ∧
    (get_videos_from_channel 2 (.ok twoItemSearch) okDetails).map
      VideoInfo.videoId = truthyIds twoItemSearch :=
  ⟨by decide, fun _ => rfl,
    (C6_amended_bound_order_skip 2 twoItemSearch okDetails (by decide)
      (fun _ => rfl)).1,
    (C6_amended_bound_order_skip 2 twoItemSearch okDetails (by decide)
      (fun _ => rfl)).2.1⟩

/-! ### Persistence failure and the fallback log (C1)

`insert_data` catches `pyodbc.Error` internally and only logs it, so a
database-level insert failure never reaches the driver's fallback handler:
the row is lost with no fallback entry.  Only an exception of another class
escaping `insert_data` triggers the handler. -/

def dbErrorOracle : String → VideoOracle :=
  fun _ => { fetch := .ok [⟨"hello"⟩], llm := .ok "a summary", tok := .ok 5,
             db := .dbError }

def raiseOracle : String → VideoOracle :=
  fun _ => { fetch := .ok [⟨"hello"⟩], llm := .ok "a summary", tok := .ok 5,
             db := .otherError }

def dbErrorChannel : ChannelOracle :=
  { channel_id := "UCabc", search := .ok [{ videoId := some "v1" }],
    details := okDetails, video := dbErrorOracle }

def raiseChannel : ChannelOracle :=
  { channel_id := "UCabc", search := .ok [{ videoId := some "v1" }],
    details := okDetails, video := raiseOracle }

/-- C1: evaluation at the failing input.  One channel, one video `v1` with a
transcript, insert failing with a database error: the driver attempts the
insert, the store stays empty, and — against the claim — the fallback log
also stays empty, because `insert_data` swallows the database error.  The
driver's fallback handler fires only for a non-database exception class
escaping the sink, as the last conjunct shows. -/
theorem C1_db_error_writes_no_fallback :
    (runDriver (fun i => i) (some ()) 20 initState
        [dbErrorChannel]).attempts.length = 1 ∧
    (runDriver (fun i => i) (some ()) 20 initState [dbErrorChannel]).store =
      [] ∧
    (runDriver (fun i => i) (some ()) 20 initState [dbErrorChannel]).fallback =
      [] ∧
    (runDriver (fun i => i) (some ()) 20 initState
        [raiseChannel]).fallback.length = 1 := by
  exact ⟨rfl, rfl, rfl, rfl⟩

end Media
